import Mathlib

/-!
Shallow embedding of the notes-app backend (dazeez1/notes-app).

The embedding follows the JavaScript source:
- the User model with its OTP instance methods (models/User.js),
- the Note model with its static query helpers (models/Note.js),
- the note controller (controllers/noteController.js),
- the auth controller and the JWT middleware (authController.js,
  authMiddleware.js), and the note router middleware wiring (noteRoutes.js).

Conventions:
- Mongo document ids are Nat; timestamps are Nat milliseconds since epoch.
- A request that may omit a field carries it as an Option.
- Database collections are plain lists of records; a mongoose query is a
  function over such a list.
- External collaborators (bcrypt, the Mongo $text engine, JWT signing) are
  function parameters; everything the claims speak about is translated from
  the source.
-/

/-- A persisted user record (models/User.js userSchema). -/
structure User where
  id : Nat
  fullName : String
  emailAddress : String
  phoneNumber : String
  passwordHash : String
  isEmailVerified : Bool
  isAccountActive : Bool
  emailVerificationOtp : Option String
  otpExpirationTime : Option Nat
  lastLoginAt : Option Nat
deriving Repr, DecidableEq

/-- A persisted note record (models/Note.js noteSchema). -/
structure Note where
  id : Nat
  noteTitle : String
  noteContent : String
  noteTags : List String
  noteOwner : Nat
  isNotePinned : Bool
  isNoteArchived : Bool
  noteCreatedAt : Nat
  noteUpdatedAt : Nat
deriving Repr, DecidableEq

/-- JS String.prototype.trim: strip leading and trailing whitespace
(structurally recursive model of the runtime built-in). -/
def jsTrim (s : String) : String :=
  ⟨((s.data.dropWhile Char.isWhitespace).reverse.dropWhile Char.isWhitespace).reverse⟩

/-- JS String.prototype.toLowerCase (the values flowing here are ASCII):
model of the runtime built-in. -/
def jsToLower (s : String) : String :=
  ⟨s.data.map Char.toLower⟩

/-! ### OTP state machine (models/User.js instance methods) -/

/-- userSchema.methods.generateEmailOtp.  The source draws
Math.floor(100000 + Math.random() * 900000), i.e. 100000 plus an integer
drawn from [0, 900000); the draw is passed in as r.  The expiration is set
to now + 10 minutes (milliseconds), and both fields are overwritten on the
record.  Returns the plaintext code together with the updated record. -/
def generateEmailOtp (now r : Nat) (u : User) : String × User :=
  let otp := Nat.repr (100000 + r)
  (otp, { u with emailVerificationOtp := some otp,
                 otpExpirationTime := some (now + 10 * 60 * 1000) })

/-- userSchema.methods.verifyEmailOtp.  Mirrors the source checks in order:
falsy code or missing expiration rejects (a JS empty string is falsy, hence
the explicit empty-string test), then strict now > expiration rejects, then
exact string comparison decides.  The method assigns nothing on the record. -/
def verifyEmailOtp (now : Nat) (u : User) (providedOtp : String) : Bool :=
  match u.emailVerificationOtp, u.otpExpirationTime with
  | some code, some exp =>
    if code = "" then false
    else if now > exp then false
    else code == providedOtp
  | _, _ => false

/-- The state-passing form of a verifyEmailOtp method call: the source method
body contains no assignment to this, so the receiver comes back unchanged. -/
def verifyEmailOtpRun (now : Nat) (u : User) (providedOtp : String) :
    Bool × User :=
  (verifyEmailOtp now u providedOtp, u)

/-- userSchema.methods.markEmailAsVerified: sets the flag, clears both OTP
fields (the source assigns undefined to each). -/
def markEmailAsVerified (u : User) : User :=
  { u with isEmailVerified := true,
           emailVerificationOtp := none,
           otpExpirationTime := none }

/-- A user state holds a pending OTP when both fields are present and the
code is not the (JS-falsy) empty string. -/
def hasPendingOtp (u : User) : Prop :=
  ∃ c e, u.emailVerificationOtp = some c ∧ u.otpExpirationTime = some e ∧ c ≠ ""

/-- Outcome of the resend-OTP controller (authController.resendOtp). -/
inductive ResendOutcome where
  | userNotFound
  | emailAlreadyVerified
  | resent (updatedUser : User) (code : String)
deriving Repr, DecidableEq

/-- authController.resendOtp, after the email lookup: 404 when no user was
found, 400 EMAIL_ALREADY_VERIFIED when the account is verified, otherwise a
fresh OTP is generated on the record and saved. -/
def resendOtp (now r : Nat) (found : Option User) : ResendOutcome :=
  match found with
  | none => .userNotFound
  | some u =>
    if u.isEmailVerified then .emailAlreadyVerified
    else
      let p := generateEmailOtp now r u
      .resent p.2 p.1

/-! ### Note store queries (models/Note.js statics) -/

/-- JS tag normalization used throughout the controller:
tag.toLowerCase().trim(). -/
def normalizeTag (t : String) : String :=
  jsTrim (jsToLower t)

/-- A note matches a tag filter list the way Mongo evaluates
noteTags: { $in: filters } — at least one of its tags is in the list. -/
def tagsMatch (filters : List String) (n : Note) : Bool :=
  n.noteTags.any (fun t => filters.contains t)

/-- Sort order of noteSchema.statics.findByUserId:
{ isNotePinned: -1, noteCreatedAt: -1 } — pinned first, then newest first. -/
def noteSortLe (a b : Note) : Bool :=
  if a.isNotePinned = b.isNotePinned then decide (b.noteCreatedAt ≤ a.noteCreatedAt)
  else a.isNotePinned

/-- noteSchema.statics.findByUserId: filter by owner, optionally by tags
($in) and by isNoteArchived = false when options.includeArchived === false,
sort pinned-first/newest-first, then skip (options.skip || 0) and limit
(options.limit || 50).  Mongo applies sort, then skip, then limit. -/
def findByUserId (store : List Note) (userId : Nat) (tags : List String)
    (includeArchived : Bool) (limit skip : Nat) : List Note :=
  let matching := store.filter (fun n =>
    n.noteOwner == userId
    && (tags.isEmpty || tagsMatch tags n)
    && (includeArchived || !n.isNoteArchived))
  let sorted := matching.mergeSort noteSortLe
  let lim := if limit = 0 then 50 else limit
  (sorted.drop skip).take lim

/-- noteSchema.statics.findByIdAndUserId: findOne on { _id, noteOwner }. -/
def findByIdAndUserId (store : List Note) (noteId userId : Nat) : Option Note :=
  store.find? (fun n => n.id == noteId && n.noteOwner == userId)

/-- The statistics row produced by the getUserNoteStats aggregation group. -/
structure NoteStats where
  totalNotes : Nat
  pinnedNotes : Nat
  archivedNotes : Nat
  totalTags : Nat
deriving Repr, DecidableEq

/-- noteSchema.statics.getUserNoteStats: $match on the owner, then one
$group computing the document count, the pinned and archived conditional
sums, and the sum of $size of each noteTags array.  As in Mongo, a $group
over an empty match yields an empty result list. -/
def getUserNoteStats (store : List Note) (userId : Nat) : List NoteStats :=
  let ns := store.filter (fun n => n.noteOwner == userId)
  if ns.isEmpty then []
  else [{ totalNotes := ns.length,
          pinnedNotes := ns.countP (fun n => n.isNotePinned),
          archivedNotes := ns.countP (fun n => n.isNoteArchived),
          totalTags := (ns.map (fun n => n.noteTags.length)).sum }]

/-! ### Note controller (controllers/noteController.js) -/

/-- Raw value of the includeArchived query parameter: absent (JS default
boolean false) or the literal query string. -/
def includeArchivedForFind (includeArchived : Option String) : Bool :=
  -- options.includeArchived = includeArchived === "true"
  match includeArchived with
  | some s => s == "true"
  | none => false

/-- The countDocuments filter in getAllNotes applies isNoteArchived: false
only when includeArchived === "false"; with the parameter absent the
destructuring default is the boolean false, which is not the string "false". -/
def includeArchivedCountFilter (includeArchived : Option String) : Bool :=
  match includeArchived with
  | some s => s == "false"
  | none => false

/-- Tag filter parsing in getAllNotes: a truthy tag parameter wins, else a
truthy tags parameter is split on commas; each entry is lower-cased and
trimmed.  A JS empty string is falsy, hence the explicit tests. -/
def parseTagFilters (tag tags : Option String) : List String :=
  match tag, tags with
  | some t, _ =>
    if t ≠ "" then [normalizeTag t]
    else match tags with
      | some ts => if ts ≠ "" then (ts.splitOn ",").map normalizeTag else []
      | none => []
  | none, some ts => if ts ≠ "" then (ts.splitOn ",").map normalizeTag else []
  | none, none => []

/-- Response of the list endpoint: the page of notes and the pagination
fields computed in getAllNotes. -/
structure ListResult where
  notes : List Note
  total : Nat
  hasMore : Bool
deriving Repr, DecidableEq

/-- noteController.getAllNotes: builds the options for findByUserId (limit
default 50, skip default 0, includeArchived === "true", parsed tag filters)
and a separate countDocuments query for the pagination total. -/
def getAllNotes (store : List Note) (userId : Nat) (tag tags : Option String)
    (limit skip : Option Nat) (includeArchived : Option String) : ListResult :=
  let tagFilters := parseTagFilters tag tags
  let lim := limit.getD 50
  let sk := skip.getD 0
  let notes := findByUserId store userId tagFilters
    (includeArchivedForFind includeArchived) lim sk
  let total := (store.filter (fun n =>
    n.noteOwner == userId
    && (tagFilters.isEmpty || tagsMatch tagFilters n)
    && (!includeArchivedCountFilter includeArchived || !n.isNoteArchived))).length
  { notes := notes, total := total, hasMore := sk + lim < total }

/-- Outcome of the single-note read endpoint. -/
inductive GetNoteOutcome where
  | notFound
  | found (n : Note)
deriving Repr, DecidableEq

/-- noteController.getNoteById: ownership-scoped lookup, 404 when absent. -/
def getNoteById (store : List Note) (caller noteId : Nat) : GetNoteOutcome :=
  match findByIdAndUserId store noteId caller with
  | none => .notFound
  | some n => .found n

/-- HTTP status the read endpoint responds with. -/
def getNoteStatus : GetNoteOutcome → Nat
  | .notFound => 404
  | .found _ => 200

/-- The optional fields of a PUT /notes/:noteId request body. -/
structure UpdateBody where
  noteTitle : Option String
  noteContent : Option String
  noteTags : Option (List String)
  isNotePinned : Option Bool
  isNoteArchived : Option Bool
deriving Repr, DecidableEq

/-- The field assignments of noteController.updateNote: each field is set
only when present in the body (strings trimmed, tags lower-cased+trimmed),
followed by note.save(), whose pre-save hook bumps noteUpdatedAt exactly
when some path was modified to a different value. -/
def applyUpdate (now : Nat) (body : UpdateBody) (n : Note) : Note :=
  let n1 := match body.noteTitle with
    | some t => { n with noteTitle := jsTrim t }
    | none => n
  let n2 := match body.noteContent with
    | some c => { n1 with noteContent := jsTrim c }
    | none => n1
  let n3 := match body.noteTags with
    | some ts => { n2 with noteTags := ts.map normalizeTag }
    | none => n2
  let n4 := match body.isNotePinned with
    | some p => { n3 with isNotePinned := p }
    | none => n3
  let n5 := match body.isNoteArchived with
    | some a => { n4 with isNoteArchived := a }
    | none => n4
  if n5 = n then n5 else { n5 with noteUpdatedAt := now }

/-- Outcome of the update endpoint. -/
inductive UpdateOutcome where
  | notFound
  | updated (n : Note)
deriving Repr, DecidableEq

/-- HTTP status the update endpoint responds with. -/
def updateStatus : UpdateOutcome → Nat
  | .notFound => 404
  | .updated _ => 200

/-- noteController.updateNote: ownership-scoped lookup, 404 when absent,
otherwise the partial update is applied and the record saved back by id. -/
def updateNote (now : Nat) (store : List Note) (caller noteId : Nat)
    (body : UpdateBody) : UpdateOutcome × List Note :=
  match findByIdAndUserId store noteId caller with
  | none => (.notFound, store)
  | some n =>
    let n5 := applyUpdate now body n
    (.updated n5, store.map (fun m => if m.id == n.id then n5 else m))

/-- Outcome of the delete endpoint. -/
inductive DeleteOutcome where
  | notFound
  | deleted (n : Note)
deriving Repr, DecidableEq

/-- HTTP status the delete endpoint responds with. -/
def deleteStatus : DeleteOutcome → Nat
  | .notFound => 404
  | .deleted _ => 200

/-- noteController.deleteNote: findOneAndDelete on { _id, noteOwner } —
404 when nothing matched, otherwise the matched document is removed. -/
def deleteNote (store : List Note) (caller noteId : Nat) :
    DeleteOutcome × List Note :=
  match store.find? (fun n => n.id == noteId && n.noteOwner == caller) with
  | none => (.notFound, store)
  | some n =>
    (.deleted n, store.eraseP (fun m => m.id == noteId && m.noteOwner == caller))

/-- noteController.getNoteStats: first aggregation row, or the zeroed
statistics object when the aggregation returned no row. -/
def getNoteStats (store : List Note) (userId : Nat) : NoteStats :=
  match getUserNoteStats store userId with
  | s :: _ => s
  | [] => { totalNotes := 0, pinnedNotes := 0, archivedNotes := 0, totalTags := 0 }

/-! ### Note creation and its validation (routes/noteRoutes.js,
noteController.createNote) -/

/-- Character class of the note title regex [a-zA-Z0-9 space -_.,!?()]
(the source also allows any JS whitespace via the s class). -/
def isTitleChar (c : Char) : Bool :=
  c.isAlpha || c.isDigit || c.isWhitespace ||
  c = '-' || c = '_' || c = '.' || c = ',' ||
  c = '!' || c = '?' || c = '(' || c = ')'

/-- Character class of the tag regex [a-zA-Z0-9-]. -/
def isTagChar (c : Char) : Bool :=
  c.isAlpha || c.isDigit || c = '-'

/-- One collected express-validator error: the offending field and its
message. -/
structure FieldError where
  field : String
  message : String
deriving Repr, DecidableEq

/-- The noteTitle validation chain of createNoteValidationRules: the value is
trimmed by the sanitizer, then notEmpty, isLength 1..100 and the anchored
title regex each contribute an error on failure. -/
def titleErrors (raw : String) : List FieldError :=
  let v := jsTrim raw
  (if v = "" then [{ field := "noteTitle", message := "Note title is required" }] else [])
  ++ (if 1 ≤ v.length ∧ v.length ≤ 100 then []
      else [{ field := "noteTitle",
              message := "Note title must be between 1 and 100 characters" }])
  ++ (if v ≠ "" ∧ v.data.all isTitleChar then []
      else [{ field := "noteTitle",
              message := "Note title contains invalid characters" }])

/-- The noteContent validation chain: trim, notEmpty, isLength 1..10000. -/
def contentErrors (raw : String) : List FieldError :=
  let v := jsTrim raw
  (if v = "" then [{ field := "noteContent", message := "Note content is required" }] else [])
  ++ (if 1 ≤ v.length ∧ v.length ≤ 10000 then []
      else [{ field := "noteContent",
              message := "Note content must be between 1 and 10,000 characters" }])

/-- The loop body of the noteTags custom validator: the first offending tag
throws, either for its length or for its character class. -/
def tagsFirstError : List String → Option String
  | [] => none
  | t :: ts =>
    if t.length < 1 ∨ t.length > 20 then some "Each tag must be 1-20 characters long"
    else if ¬ (t ≠ "" ∧ t.data.all isTagChar) then
      some "Tags can only contain letters, numbers, and hyphens"
    else tagsFirstError ts

/-- The noteTags custom validator: the count bound throws first, then the
per-tag loop; a thrown message becomes the single error of the chain. -/
def tagsCustomError (tags : List String) : Option String :=
  if tags.length > 10 then some "Maximum 10 tags allowed"
  else tagsFirstError tags

/-- Errors contributed by the optional noteTags chain. -/
def tagsErrors : Option (List String) → List FieldError
  | none => []
  | some tags =>
    match tagsCustomError tags with
    | some m => [{ field := "noteTags", message := m }]
    | none => []

/-- All collected validation errors of the create-note request. -/
def createNoteValidationErrors (title content : String)
    (tags : Option (List String)) : List FieldError :=
  titleErrors title ++ contentErrors content ++ tagsErrors tags

/-- Outcome of the create endpoint. -/
inductive CreateOutcome where
  | validationFailed (errs : List FieldError)
  | created (n : Note)
deriving Repr, DecidableEq

/-- Projection used to state facts about a successful creation. -/
def createdNote : CreateOutcome → Option Note
  | .created n => some n
  | .validationFailed _ => none

/-- noteController.createNote: reject with the collected validation errors
when any chain failed; otherwise store a new note with trimmed title and
content, tags mapped through toLowerCase().trim() (no deduplication), the
caller as owner, and schema defaults for the flags and timestamps. -/
def createNote (now newId : Nat) (store : List Note) (caller : Nat)
    (title content : String) (tags : Option (List String)) :
    CreateOutcome × List Note :=
  let errs := createNoteValidationErrors title content tags
  if errs.isEmpty then
    let n : Note :=
      { id := newId,
        noteTitle := jsTrim title,
        noteContent := jsTrim content,
        noteTags := (tags.getD []).map normalizeTag,
        noteOwner := caller,
        isNotePinned := false,
        isNoteArchived := false,
        noteCreatedAt := now,
        noteUpdatedAt := now }
    (.created n, store ++ [n])
  else (.validationFailed errs, store)

/-! ### Search (noteController.searchNotes) -/

/-- Outcome of the search endpoint. -/
inductive SearchOutcome where
  | invalidQuery
  | results (notes : List Note) (total : Nat)
deriving Repr, DecidableEq

/-- HTTP status the search endpoint responds with. -/
def searchStatus : SearchOutcome → Nat
  | .invalidQuery => 400
  | .results _ _ => 200

/-- noteController.searchNotes.  The handler rejects with 400
INVALID_SEARCH_QUERY when the q parameter is falsy or trims to fewer than 2
characters; otherwise it runs a find on { noteOwner, $text: trimmed query,
isNoteArchived: false } with limit (default 20) and skip (default 0), and a
countDocuments on the same filter.  The $text word matching is the document
store collaborator, passed in as textMatches; its relevance ordering is not
modelled (no stated property depends on the order of results). -/
def searchNotes (textMatches : String → Note → Bool) (store : List Note)
    (userId : Nat) (q : Option String) (limit skip : Option Nat) : SearchOutcome :=
  match q with
  | none => .invalidQuery
  | some s =>
    if s = "" ∨ (jsTrim s).length < 2 then .invalidQuery
    else
      let matching := store.filter (fun n =>
        n.noteOwner == userId && textMatches (jsTrim s) n && !n.isNoteArchived)
      let lim := limit.getD 20
      let sk := skip.getD 0
      .results ((matching.drop sk).take lim) matching.length

/-! ### Login and route authentication (authController.loginUser,
middleware/authMiddleware.js, routes/noteRoutes.js) -/

/-- The claims generateAuthToken signs into the JWT: userId, emailAddress
and isEmailVerified, with a 7-day default lifetime.  The signature itself is
the JWT library collaborator; a token value of this type stands for a token
that verifies against the server secret. -/
structure AuthToken where
  userId : Nat
  emailAddress : String
  isEmailVerified : Bool
  expiresAt : Nat
deriving Repr, DecidableEq

/-- authMiddleware.generateAuthToken applied to a user record. -/
def generateAuthToken (now : Nat) (u : User) : AuthToken :=
  { userId := u.id,
    emailAddress := u.emailAddress,
    isEmailVerified := u.isEmailVerified,
    expiresAt := now + 7 * 24 * 60 * 60 * 1000 }

/-- Outcome of the login endpoint. -/
inductive LoginOutcome where
  | invalidCredentials
  | accountDeactivated
  | success (token : AuthToken) (user : User)
deriving Repr, DecidableEq

/-- authController.loginUser, after the email lookup: 401 when no user was
found, 401 ACCOUNT_DEACTIVATED when isAccountActive is false, 401 when the
bcrypt comparison (the checkPassword collaborator) rejects, otherwise
lastLoginAt is updated, the record saved, and a token minted for it.
No branch consults isEmailVerified. -/
def loginUser (checkPassword : String → String → Bool) (now : Nat)
    (found : Option User) (password : String) : LoginOutcome :=
  match found with
  | none => .invalidCredentials
  | some u =>
    if ¬ u.isAccountActive then .accountDeactivated
    else if ¬ checkPassword password u.passwordHash then .invalidCredentials
    else
      let u1 := { u with lastLoginAt := some now }
      .success (generateAuthToken now u1) u1

/-- Outcome of the authentication middleware. -/
inductive AuthOutcome where
  | missingToken
  | tokenExpired
  | invalidTokenUser
  | accountDeactivated
  | authenticated (userId : Nat) (isEmailVerified : Bool)
deriving Repr, DecidableEq

/-- authMiddleware.authenticateToken: 401 MISSING_TOKEN without a bearer
token, 401 TOKEN_EXPIRED when jwt.verify sees the token past its expiry,
401 INVALID_TOKEN when no user matches the userId claim, 401
ACCOUNT_DEACTIVATED when the re-fetched user is inactive; otherwise the
request proceeds with the user attached.  isEmailVerified is never tested. -/
def authenticateToken (now : Nat) (users : List User)
    (token : Option AuthToken) : AuthOutcome :=
  match token with
  | none => .missingToken
  | some t =>
    if t.expiresAt < now then .tokenExpired
    else match users.find? (fun u => u.id == t.userId) with
      | none => .invalidTokenUser
      | some u =>
        if ¬ u.isAccountActive then .accountDeactivated
        else .authenticated u.id u.isEmailVerified

/-- The protected note routes registered in routes/noteRoutes.js. -/
inductive NoteRoute where
  | create
  | listAll
  | search
  | stats
  | getOne
  | update
  | delete
  | pin
  | archive
deriving Repr, DecidableEq

/-- Authentication middleware attached to each protected note route: every
registration in routes/noteRoutes.js passes authenticateToken (and input
validators), never requireEmailVerification. -/
def noteRouteAuth (_route : NoteRoute) (now : Nat) (users : List User)
    (token : Option AuthToken) : AuthOutcome :=
  authenticateToken now users token

/-- The per-tag shape the claims name: 1 to 20 characters, each from
[a-zA-Z0-9-]. -/
def tagShapeOk (t : String) : Bool :=
  (1 ≤ t.length && t.length ≤ 20) && t.data.all isTagChar

/-! ### Helper lemmas about decimal printing (for the 6-digit OTP) -/

lemma digitChar_isDigit (m : Nat) (h : m < 10) : (Nat.digitChar m).isDigit = true := by
  interval_cases m <;> decide

lemma toDigitsCore_len (f : Nat) : ∀ (n : Nat) (l : List Char), n < f →
    (Nat.toDigitsCore 10 f n l).length = Nat.log 10 n + 1 + l.length := by
  induction f with
  | zero => intro n l h; exact absurd h (Nat.not_lt_zero n)
  | succ f ih =>
    intro n l h
    rw [Nat.toDigitsCore]
    by_cases h10 : n / 10 = 0
    · have hn : n < 10 := (Nat.div_eq_zero_iff (by norm_num)).1 h10
      simp [h10, Nat.log_eq_zero_iff.2 (Or.inl hn)]
      omega
    · have hge : 10 ≤ n := by
        by_contra hlt
        exact h10 (Nat.div_eq_zero_iff (by norm_num) |>.2 (by omega))
      have hlt : n / 10 < f := by
        have := Nat.div_lt_self (by omega : 0 < n) (by norm_num : 1 < 10)
        omega
      have hlog : Nat.log 10 n = Nat.log 10 (n / 10) + 1 := by
        have := Nat.log_div_base 10 n
        have hpos : 0 < Nat.log 10 n := Nat.log_pos (by norm_num) hge
        omega
      simp only [h10, if_false]
      rw [ih (n / 10) _ hlt]
      simp only [List.length_cons]
      omega

lemma repr_length_eq (n : Nat) : (Nat.repr n).length = Nat.log 10 n + 1 := by
  show (Nat.toDigits 10 n).asString.length = _
  rw [Nat.toDigits]
  have h : (List.asString (Nat.toDigitsCore 10 (n + 1) n [])).length
      = (Nat.toDigitsCore 10 (n + 1) n []).length := by
    simp [List.asString, String.length]
  rw [h, toDigitsCore_len (n + 1) n [] (Nat.lt_succ_self n)]
  simp

lemma toDigitsCore_all_digits (f : Nat) : ∀ (n : Nat) (l : List Char),
    (∀ c ∈ l, c.isDigit = true) →
    ∀ c ∈ Nat.toDigitsCore 10 f n l, c.isDigit = true := by
  induction f with
  | zero => intro n l hl; simpa [Nat.toDigitsCore] using hl
  | succ f ih =>
    intro n l hl c hc
    rw [Nat.toDigitsCore] at hc
    by_cases h10 : n / 10 = 0
    · simp [h10] at hc
      rcases hc with rfl | hc
      · exact digitChar_isDigit _ (Nat.mod_lt _ (by norm_num))
      · exact hl c hc
    · simp only [h10, if_false] at hc
      refine ih (n / 10) _ ?_ c hc
      intro d hd
      rcases List.mem_cons.1 hd with rfl | hd
      · exact digitChar_isDigit _ (Nat.mod_lt _ (by norm_num))
      · exact hl d hd

lemma repr_all_digits (n : Nat) : ∀ c ∈ (Nat.repr n).data, c.isDigit = true := by
  show ∀ c ∈ (Nat.toDigits 10 n).asString.data, c.isDigit = true
  rw [Nat.toDigits]
  intro c hc
  have h : (List.asString (Nat.toDigitsCore 10 (n + 1) n [])).data
      = Nat.toDigitsCore 10 (n + 1) n [] := rfl
  rw [h] at hc
  exact toDigitsCore_all_digits (n + 1) n [] (by simp) c hc

/-! ### Claim theorems: OTP state machine -/

/-- C4: verifyEmailOtp returns false exactly when no pending code exists,
or now is strictly past the stored expiration, or the candidate differs
from the stored code as a string; at now equal to the expiration a correct
candidate still verifies; and a verify call leaves the user record
unchanged. -/
theorem verifyEmailOtp_spec (now : Nat) (u : User) (cand : String) :
    (verifyEmailOtp now u cand = false ↔
      (¬ hasPendingOtp u ∨ (∃ e, u.otpExpirationTime = some e ∧ e < now) ∨
        u.emailVerificationOtp ≠ some cand)) ∧
    (∀ c e, u.emailVerificationOtp = some c → u.otpExpirationTime = some e →
      c ≠ "" → now = e → verifyEmailOtp now u c = true) ∧
    (verifyEmailOtpRun now u cand).2 = u := by
  refine ⟨?_, ?_, rfl⟩
  · rcases hc : u.emailVerificationOtp with _ | c
    · simp [verifyEmailOtp, hasPendingOtp, hc]
    · rcases he : u.otpExpirationTime with _ | e
      · simp [verifyEmailOtp, hasPendingOtp, hc, he]
      · by_cases hemp : c = ""
        · subst hemp
          simp [verifyEmailOtp, hasPendingOtp, hc, he]
        · by_cases hexp : e < now
          · simp [verifyEmailOtp, hasPendingOtp, hc, he, hemp, hexp]
          · simp only [verifyEmailOtp, hc, he, if_neg hemp, gt_iff_lt,
              if_neg hexp, beq_eq_false_iff_ne, ne_eq, hasPendingOtp]
            constructor
            · intro hne
              exact Or.inr (Or.inr (by simpa using hne))
            · rintro (hnp | ⟨e2, he2, hlt⟩ | hne)
              · exact absurd ⟨c, e, rfl, rfl, hemp⟩ hnp
              · cases he2; exact absurd hlt hexp
              · simpa using hne
  · intro c e hc he hcne hnow
    subst hnow
    simp [verifyEmailOtp, hc, he, hcne]

/-- C4 witness: a user with pending code 123456 expiring at time 600000 is
verified by the exact candidate at exactly the expiration instant. -/
theorem verifyEmailOtp_spec_witness :
    verifyEmailOtp 600000
      (User.mk 1 "Ada Lovelace" "a@b.c" "123" "hash" false true
        (some "123456") (some 600000) none) "123456" = true :=
  (verifyEmailOtp_spec 600000
      (User.mk 1 "Ada Lovelace" "a@b.c" "123" "hash" false true
        (some "123456") (some 600000) none) "123456").2.1
    "123456" 600000 rfl rfl (by decide) rfl

/-- C5 counterexample: reissuing at random draw 0 to a user whose pending
code is already 100000 produces the identical code, so the previously
issued code still verifies after the reissue — the claim as stated fails. -/
theorem generateEmailOtp_reissue_collision_counterexample :
    (User.mk 1 "Ada Lovelace" "a@b.c" "123" "hash" false true
        (some "100000") (some 2000) none).emailVerificationOtp = some "100000" ∧
    verifyEmailOtp 1000
      (generateEmailOtp 1000 0
        (User.mk 1 "Ada Lovelace" "a@b.c" "123" "hash" false true
          (some "100000") (some 2000) none)).2
      "100000" = true := by
  exact ⟨rfl, by decide⟩

/-- C5 amended: generateEmailOtp returns the decimal numeral of
100000 + draw — a 6-digit numeric string — sets the stored expiration to
now + 10 minutes and overwrites both pending fields; provided the new code
differs from the previously issued one, the previous code no longer
verifies at any time. -/
theorem generateEmailOtp_spec (now r : Nat) (u : User) (oldCode : String)
    (hr : r < 900000) (hold : u.emailVerificationOtp = some oldCode)
    (hne : oldCode ≠ Nat.repr (100000 + r)) :
    ((generateEmailOtp now r u).1 = Nat.repr (100000 + r) ∧
      100000 ≤ 100000 + r ∧ 100000 + r < 1000000) ∧
    (generateEmailOtp now r u).1.length = 6 ∧
    (∀ c ∈ (generateEmailOtp now r u).1.data, c.isDigit = true) ∧
    (generateEmailOtp now r u).2.emailVerificationOtp = some (generateEmailOtp now r u).1 ∧
    (generateEmailOtp now r u).2.otpExpirationTime = some (now + 10 * 60 * 1000) ∧
    (∀ t, verifyEmailOtp t (generateEmailOtp now r u).2 oldCode = false) := by
  refine ⟨⟨rfl, by omega, by omega⟩, ?_, ?_, rfl, rfl, ?_⟩
  · show (Nat.repr (100000 + r)).length = 6
    rw [repr_length_eq]
    have h5 : Nat.log 10 (100000 + r) = 5 :=
      Nat.log_eq_of_pow_le_of_lt_pow (by norm_num) (by norm_num; omega)
    omega
  · exact repr_all_digits (100000 + r)
  · intro t
    have h2 : (generateEmailOtp now r u).2.emailVerificationOtp
        = some (Nat.repr (100000 + r)) := rfl
    have h3 : (generateEmailOtp now r u).2.otpExpirationTime
        = some (now + 10 * 60 * 1000) := rfl
    unfold verifyEmailOtp
    rw [h2, h3]
    simp only []
    split
    · rfl
    · split
      · rfl
      · simp only [beq_eq_false_iff_ne, ne_eq]
        exact fun h => hne h.symm

/-- C5 witness: issuing to a user whose pending code is 123456 with draw
777214 at time 1000 yields code 877214, expiration 601000, and the old
code 123456 no longer verifies. -/
theorem generateEmailOtp_spec_witness :
    ((generateEmailOtp 1000 777214
        (User.mk 1 "Ada Lovelace" "a@b.c" "123" "hash" false true
          (some "123456") (some 400000) none)).1 = Nat.repr 877214 ∧
      100000 ≤ 877214 ∧ 877214 < 1000000) ∧
    (generateEmailOtp 1000 777214
        (User.mk 1 "Ada Lovelace" "a@b.c" "123" "hash" false true
          (some "123456") (some 400000) none)).1.length = 6 ∧
    (∀ c ∈ (generateEmailOtp 1000 777214
        (User.mk 1 "Ada Lovelace" "a@b.c" "123" "hash" false true
          (some "123456") (some 400000) none)).1.data, c.isDigit = true) ∧
    (generateEmailOtp 1000 777214
        (User.mk 1 "Ada Lovelace" "a@b.c" "123" "hash" false true
          (some "123456") (some 400000) none)).2.emailVerificationOtp
      = some (generateEmailOtp 1000 777214
        (User.mk 1 "Ada Lovelace" "a@b.c" "123" "hash" false true
          (some "123456") (some 400000) none)).1 ∧
    (generateEmailOtp 1000 777214
        (User.mk 1 "Ada Lovelace" "a@b.c" "123" "hash" false true
          (some "123456") (some 400000) none)).2.otpExpirationTime
      = some (1000 + 10 * 60 * 1000) ∧
    (∀ t, verifyEmailOtp t (generateEmailOtp 1000 777214
        (User.mk 1 "Ada Lovelace" "a@b.c" "123" "hash" false true
          (some "123456") (some 400000) none)).2 "123456" = false) :=
  generateEmailOtp_spec 1000 777214
    (User.mk 1 "Ada Lovelace" "a@b.c" "123" "hash" false true
      (some "123456") (some 400000) none) "123456"
    (by decide) rfl (by decide)

/-- C6: markEmailAsVerified sets isEmailVerified, clears both OTP fields
(so no pending cycle remains and any replayed verification attempt fails),
and a resend request for the verified user is rejected with the distinct
EMAIL_ALREADY_VERIFIED error instead of issuing a new code. -/
theorem markEmailAsVerified_terminal_spec (u : User) (now r t : Nat) (cand : String) :
    (markEmailAsVerified u).isEmailVerified = true ∧
    (markEmailAsVerified u).emailVerificationOtp = none ∧
    (markEmailAsVerified u).otpExpirationTime = none ∧
    ¬ hasPendingOtp (markEmailAsVerified u) ∧
    verifyEmailOtp t (markEmailAsVerified u) cand = false ∧
    resendOtp now r (some (markEmailAsVerified u)) = ResendOutcome.emailAlreadyVerified := by
  refine ⟨rfl, rfl, rfl, ?_, ?_, ?_⟩
  · rintro ⟨c, e, hc, he, hne⟩
    simp [markEmailAsVerified] at hc
  · simp [verifyEmailOtp, markEmailAsVerified]
  · simp [resendOtp, markEmailAsVerified]

/-! ### Claim theorems: note listing, ownership, statistics -/

/-- C1 failing input: with includeArchived absent and the store holding
exactly one archived note of the caller, the returned page is empty but the
pagination total still counts the archived note, because the count filter
compares the destructuring default boolean false against the string false;
with includeArchived explicitly the string false the total is 0 as claimed. -/
theorem getAllNotes_absent_includeArchived_total_bug :
    (getAllNotes [Note.mk 1 "t" "c" [] 1 false true 0 0] 1
        none none none none none).notes = [] ∧
    (getAllNotes [Note.mk 1 "t" "c" [] 1 false true 0 0] 1
        none none none none none).total = 1 ∧
    (getAllNotes [Note.mk 1 "t" "c" [] 1 false true 0 0] 1
        none none none none (some "false")).total = 0 := by
  refine ⟨?_, rfl, rfl⟩
  simp [getAllNotes, findByUserId, parseTagFilters, includeArchivedForFind,
    tagsMatch]

/-- C2: for a read, update or delete whose note id has no note of the
caller in the store — a nonexistent id or a note owned by someone else —
the outcome is NotFound with HTTP status 404 and the store is unchanged. -/
theorem noteOps_crossOwner_notFound (store : List Note)
    (caller noteId now : Nat) (body : UpdateBody)
    (h : ∀ n ∈ store, n.id = noteId → n.noteOwner ≠ caller) :
    getNoteById store caller noteId = GetNoteOutcome.notFound ∧
    getNoteStatus (getNoteById store caller noteId) = 404 ∧
    (updateNote now store caller noteId body).1 = UpdateOutcome.notFound ∧
    updateStatus (updateNote now store caller noteId body).1 = 404 ∧
    (updateNote now store caller noteId body).2 = store ∧
    (deleteNote store caller noteId).1 = DeleteOutcome.notFound ∧
    deleteStatus (deleteNote store caller noteId).1 = 404 ∧
    (deleteNote store caller noteId).2 = store := by
  have hfind : store.find? (fun n => n.id == noteId && n.noteOwner == caller)
      = none := by
    rw [List.find?_eq_none]
    intro n hn
    simp only [Bool.and_eq_true, beq_iff_eq, not_and]
    exact h n hn
  refine ⟨?_, ?_, ?_, ?_, ?_, ?_, ?_, ?_⟩ <;>
    simp [getNoteById, getNoteStatus, updateNote, updateStatus, deleteNote,
      deleteStatus, findByIdAndUserId, hfind]

/-- C2 witness: a store holding only note 5 owned by user 2; caller 1
requesting note 5 gets NotFound from read, update and delete, and the
store is untouched. -/
theorem noteOps_crossOwner_notFound_witness :
    getNoteById [Note.mk 5 "t" "c" [] 2 false false 0 0] 1 5
        = GetNoteOutcome.notFound ∧
    getNoteStatus (getNoteById [Note.mk 5 "t" "c" [] 2 false false 0 0] 1 5) = 404 ∧
    (updateNote 9 [Note.mk 5 "t" "c" [] 2 false false 0 0] 1 5
        (UpdateBody.mk none none none none none)).1 = UpdateOutcome.notFound ∧
    updateStatus (updateNote 9 [Note.mk 5 "t" "c" [] 2 false false 0 0] 1 5
        (UpdateBody.mk none none none none none)).1 = 404 ∧
    (updateNote 9 [Note.mk 5 "t" "c" [] 2 false false 0 0] 1 5
        (UpdateBody.mk none none none none none)).2
      = [Note.mk 5 "t" "c" [] 2 false false 0 0] ∧
    (deleteNote [Note.mk 5 "t" "c" [] 2 false false 0 0] 1 5).1
        = DeleteOutcome.notFound ∧
    deleteStatus (deleteNote [Note.mk 5 "t" "c" [] 2 false false 0 0] 1 5).1 = 404 ∧
    (deleteNote [Note.mk 5 "t" "c" [] 2 false false 0 0] 1 5).2
      = [Note.mk 5 "t" "c" [] 2 false false 0 0] :=
  noteOps_crossOwner_notFound [Note.mk 5 "t" "c" [] 2 false false 0 0] 1 5 9
    (UpdateBody.mk none none none none none) (by decide)

/-- C7: the statistics endpoint reports, over exactly the owner's notes,
the note count, the pinned count, the archived count and the sum of
per-note tag-array lengths (occurrences, duplicates counted); an owner with
no notes gets the zeroed statistics object, never a missing result. -/
theorem getNoteStats_spec (store : List Note) (userId : Nat) :
    (getNoteStats store userId).totalNotes
      = (store.filter (fun n => n.noteOwner == userId)).length ∧
    (getNoteStats store userId).pinnedNotes
      = (store.filter (fun n => n.noteOwner == userId)).countP (fun n => n.isNotePinned) ∧
    (getNoteStats store userId).archivedNotes
      = (store.filter (fun n => n.noteOwner == userId)).countP (fun n => n.isNoteArchived) ∧
    (getNoteStats store userId).totalTags
      = ((store.filter (fun n => n.noteOwner == userId)).map (fun n => n.noteTags.length)).sum ∧
    (store.filter (fun n => n.noteOwner == userId) = [] →
      getNoteStats store userId = NoteStats.mk 0 0 0 0) := by
  rcases hemp : store.filter (fun n => n.noteOwner == userId) with _ | ⟨n, ns⟩
  · simp [getNoteStats, getUserNoteStats, hemp]
  · simp [getNoteStats, getUserNoteStats, hemp]

/-- C7 witness: a fresh owner with an empty store receives exactly the
zeroed statistics object. -/
theorem getNoteStats_spec_witness :
    getNoteStats [] 1 = NoteStats.mk 0 0 0 0 :=
  (getNoteStats_spec [] 1).2.2.2.2 rfl

/-! ### Claim theorems: partial update -/

lemma applyUpdate_fields (now : Nat) (body : UpdateBody) (n : Note) :
    (body.noteTitle = none → (applyUpdate now body n).noteTitle = n.noteTitle) ∧
    (∀ t, body.noteTitle = some t → (applyUpdate now body n).noteTitle = jsTrim t) ∧
    (body.noteContent = none → (applyUpdate now body n).noteContent = n.noteContent) ∧
    (∀ c, body.noteContent = some c → (applyUpdate now body n).noteContent = jsTrim c) ∧
    (body.noteTags = none → (applyUpdate now body n).noteTags = n.noteTags) ∧
    (∀ ts, body.noteTags = some ts → (applyUpdate now body n).noteTags = ts.map normalizeTag) ∧
    (body.isNotePinned = none → (applyUpdate now body n).isNotePinned = n.isNotePinned) ∧
    (∀ b, body.isNotePinned = some b → (applyUpdate now body n).isNotePinned = b) ∧
    (body.isNoteArchived = none → (applyUpdate now body n).isNoteArchived = n.isNoteArchived) ∧
    (∀ b, body.isNoteArchived = some b → (applyUpdate now body n).isNoteArchived = b) ∧
    (applyUpdate now body n).id = n.id ∧
    (applyUpdate now body n).noteOwner = n.noteOwner ∧
    (applyUpdate now body n).noteCreatedAt = n.noteCreatedAt := by
  obtain ⟨bt, bc, bg, bp, ba⟩ := body
  cases bt <;> cases bc <;> cases bg <;> cases bp <;> cases ba <;>
    (simp only [applyUpdate] <;> split <;> simp_all)

/-- C9: an update on an owned note changes exactly the fields present in
the request body — provided strings are trimmed, provided tags are
lower-cased and trimmed, provided flags are assigned — while every omitted
field, as well as the identity, the owner and the creation time, keeps its
previous value. -/
theorem updateNote_partial_spec (now : Nat) (store : List Note)
    (caller noteId : Nat) (body : UpdateBody) (n : Note)
    (hfind : findByIdAndUserId store noteId caller = some n) :
    ∃ n5, (updateNote now store caller noteId body).1 = UpdateOutcome.updated n5 ∧
      ((body.noteTitle = none → n5.noteTitle = n.noteTitle) ∧
       (∀ t, body.noteTitle = some t → n5.noteTitle = jsTrim t) ∧
       (body.noteContent = none → n5.noteContent = n.noteContent) ∧
       (∀ c, body.noteContent = some c → n5.noteContent = jsTrim c) ∧
       (body.noteTags = none → n5.noteTags = n.noteTags) ∧
       (∀ ts, body.noteTags = some ts → n5.noteTags = ts.map normalizeTag) ∧
       (body.isNotePinned = none → n5.isNotePinned = n.isNotePinned) ∧
       (∀ b, body.isNotePinned = some b → n5.isNotePinned = b) ∧
       (body.isNoteArchived = none → n5.isNoteArchived = n.isNoteArchived) ∧
       (∀ b, body.isNoteArchived = some b → n5.isNoteArchived = b) ∧
       n5.id = n.id ∧ n5.noteOwner = n.noteOwner ∧
       n5.noteCreatedAt = n.noteCreatedAt) :=
  ⟨applyUpdate now body n, by simp [updateNote, hfind],
    applyUpdate_fields now body n⟩

/-- C9 witness: updating the single owned note with a body carrying only a
new title changes the title to its trimmed value and leaves content, tags
and both flags at their previous values. -/
theorem updateNote_partial_spec_witness :
    ∃ n5, (updateNote 9 [Note.mk 1 "Old" "body" ["x"] 1 false false 0 0] 1 1
        (UpdateBody.mk (some " New Title ") none none none none)).1
        = UpdateOutcome.updated n5 ∧
      (((UpdateBody.mk (some " New Title ") none none none none : UpdateBody).noteTitle = none →
          n5.noteTitle = (Note.mk 1 "Old" "body" ["x"] 1 false false 0 0).noteTitle) ∧
       (∀ t, (UpdateBody.mk (some " New Title ") none none none none : UpdateBody).noteTitle = some t →
          n5.noteTitle = jsTrim t) ∧
       ((UpdateBody.mk (some " New Title ") none none none none : UpdateBody).noteContent = none →
          n5.noteContent = (Note.mk 1 "Old" "body" ["x"] 1 false false 0 0).noteContent) ∧
       (∀ c, (UpdateBody.mk (some " New Title ") none none none none : UpdateBody).noteContent = some c →
          n5.noteContent = jsTrim c) ∧
       ((UpdateBody.mk (some " New Title ") none none none none : UpdateBody).noteTags = none →
          n5.noteTags = (Note.mk 1 "Old" "body" ["x"] 1 false false 0 0).noteTags) ∧
       (∀ ts, (UpdateBody.mk (some " New Title ") none none none none : UpdateBody).noteTags = some ts →
          n5.noteTags = ts.map normalizeTag) ∧
       ((UpdateBody.mk (some " New Title ") none none none none : UpdateBody).isNotePinned = none →
          n5.isNotePinned = (Note.mk 1 "Old" "body" ["x"] 1 false false 0 0).isNotePinned) ∧
       (∀ b, (UpdateBody.mk (some " New Title ") none none none none : UpdateBody).isNotePinned = some b →
          n5.isNotePinned = b) ∧
       ((UpdateBody.mk (some " New Title ") none none none none : UpdateBody).isNoteArchived = none →
          n5.isNoteArchived = (Note.mk 1 "Old" "body" ["x"] 1 false false 0 0).isNoteArchived) ∧
       (∀ b, (UpdateBody.mk (some " New Title ") none none none none : UpdateBody).isNoteArchived = some b →
          n5.isNoteArchived = b) ∧
       n5.id = (Note.mk 1 "Old" "body" ["x"] 1 false false 0 0).id ∧
       n5.noteOwner = (Note.mk 1 "Old" "body" ["x"] 1 false false 0 0).noteOwner ∧
       n5.noteCreatedAt = (Note.mk 1 "Old" "body" ["x"] 1 false false 0 0).noteCreatedAt) :=
  updateNote_partial_spec 9 [Note.mk 1 "Old" "body" ["x"] 1 false false 0 0] 1 1
    (UpdateBody.mk (some " New Title ") none none none none)
    (Note.mk 1 "Old" "body" ["x"] 1 false false 0 0) rfl

/-! ### Claim theorems: note creation and tag handling -/

lemma string_ne_empty_iff (t : String) : t ≠ "" ↔ 1 ≤ t.length := by
  constructor
  · intro h
    rcases t with ⟨l⟩
    cases l with
    | nil => exact absurd rfl h
    | cons c cs => simp [String.length]
  · intro h hrfl
    subst hrfl
    simp at h

lemma tagsFirstError_eq_none_iff (ts : List String) :
    tagsFirstError ts = none ↔ ∀ t ∈ ts, tagShapeOk t = true := by
  induction ts with
  | nil => simp [tagsFirstError]
  | cons t ts ih =>
    simp only [tagsFirstError]
    by_cases h1 : t.length < 1 ∨ t.length > 20
    · rw [if_pos h1]
      refine ⟨fun h => by simp at h, fun hall => ?_⟩
      have := hall t (List.mem_cons_self t ts)
      simp only [tagShapeOk, Bool.and_eq_true, decide_eq_true_eq] at this
      omega
    · have h1a : 1 ≤ t.length := by omega
      have h1b : t.length ≤ 20 := by omega
      have hne : t ≠ "" := (string_ne_empty_iff t).2 h1a
      rw [if_neg h1]
      by_cases h2 : t.data.all isTagChar = true
      · rw [if_neg (by simpa [hne] using h2)]
        rw [ih]
        have hsh : tagShapeOk t = true := by
          simp only [tagShapeOk, Bool.and_eq_true, decide_eq_true_eq]
          exact ⟨⟨h1a, h1b⟩, h2⟩
        simp [List.forall_mem_cons, hsh]
      · rw [if_pos (by simp [hne, h2])]
        refine ⟨fun h => by simp at h, fun hall => ?_⟩
        have := hall t (List.mem_cons_self t ts)
        simp only [tagShapeOk, Bool.and_eq_true, decide_eq_true_eq] at this
        exact absurd this.2 h2

lemma tagsCustomError_eq_none_iff (ts : List String) :
    tagsCustomError ts = none ↔
      (ts.length ≤ 10 ∧ ∀ t ∈ ts, tagShapeOk t = true) := by
  unfold tagsCustomError
  by_cases h : ts.length > 10
  · rw [if_pos h]
    refine ⟨fun hc => by simp at hc, fun hc => ?_⟩
    omega
  · have h' : ts.length ≤ 10 := by omega
    rw [if_neg h, tagsFirstError_eq_none_iff]
    simp [h']

lemma titleErrors_field (raw : String) :
    ∀ e ∈ titleErrors raw, e.field = "noteTitle" := by
  intro e he
  simp only [titleErrors, List.mem_append] at he
  rcases he with (he | he) | he <;> (split at he <;> simp_all)

lemma contentErrors_field (raw : String) :
    ∀ e ∈ contentErrors raw, e.field = "noteContent" := by
  intro e he
  simp only [contentErrors, List.mem_append] at he
  rcases he with he | he <;> (split at he <;> simp_all)

lemma tagsErrors_field (tags : Option (List String)) :
    ∀ e ∈ tagsErrors tags, e.field = "noteTags" := by
  intro e he
  rcases tags with _ | ts
  · simp [tagsErrors] at he
  · simp only [tagsErrors] at he
    split at he <;> simp_all

/-- C3 counterexample: creating a note with tags AB and ab stores ab twice:
the controller lower-cases every tag (tag.toLowerCase().trim()), so the
stored list is not the caller's list unchanged, while duplicates are indeed
kept. -/
theorem createNote_lowercases_tags_counterexample :
    (createdNote (createNote 0 1 [] 7 "Title" "content"
        (some ["AB", "ab"])).1).map (fun n => n.noteTags)
      = some ["ab", "ab"] ∧
    (some ["ab", "ab"] : Option (List String)) ≠ some ["AB", "ab"] :=
  ⟨by decide, by decide⟩

/-- C3 amended: the stored tag list is the caller's list with each tag
lower-cased and trimmed, in order and without deduplication; creation
succeeds exactly when the title, content and tag chains all validate —
for tags, at most 10 of them, each matching the 1-20 character
alphanumeric-plus-hyphen shape — and each violated field contributes an
entry under its own name to the validation error list. -/
theorem createNote_tags_spec (now newId : Nat) (store : List Note)
    (caller : Nat) (title content : String) (tags : Option (List String)) :
    (∀ n, (createNote now newId store caller title content tags).1
        = CreateOutcome.created n →
      n.noteTags = (tags.getD []).map normalizeTag) ∧
    ((∃ n, (createNote now newId store caller title content tags).1
        = CreateOutcome.created n) ↔
      (titleErrors title = [] ∧ contentErrors content = [] ∧
        ∀ ts, tags = some ts →
          (ts.length ≤ 10 ∧ ∀ t ∈ ts, tagShapeOk t = true))) ∧
    (titleErrors title ≠ [] →
      ∃ errs, (createNote now newId store caller title content tags).1
          = CreateOutcome.validationFailed errs ∧
        ∃ e ∈ errs, e.field = "noteTitle") ∧
    (contentErrors content ≠ [] →
      ∃ errs, (createNote now newId store caller title content tags).1
          = CreateOutcome.validationFailed errs ∧
        ∃ e ∈ errs, e.field = "noteContent") ∧
    (∀ ts, tags = some ts →
      (10 < ts.length ∨ ∃ t ∈ ts, tagShapeOk t = false) →
      ∃ errs, (createNote now newId store caller title content tags).1
          = CreateOutcome.validationFailed errs ∧
        ∃ e ∈ errs, e.field = "noteTags") := by
  have houtFail : ¬ (createNoteValidationErrors title content tags).isEmpty →
      (createNote now newId store caller title content tags).1
        = CreateOutcome.validationFailed
            (createNoteValidationErrors title content tags) := by
    intro hne
    simp [createNote, hne]
  refine ⟨?_, ?_, ?_, ?_, ?_⟩
  · intro n hn
    by_cases he : (createNoteValidationErrors title content tags).isEmpty
    · have hout : (createNote now newId store caller title content tags).1
          = CreateOutcome.created
            (Note.mk newId (jsTrim title) (jsTrim content)
              ((tags.getD []).map normalizeTag) caller false false now now) := by
        simp [createNote, he]
      rw [hout] at hn
      cases hn
      rfl
    · rw [houtFail he] at hn
      cases hn
  · constructor
    · rintro ⟨n, hn⟩
      by_cases he : (createNoteValidationErrors title content tags).isEmpty
      · have he' : createNoteValidationErrors title content tags = [] :=
          List.isEmpty_iff.1 he
        have h3 : titleErrors title = [] ∧ contentErrors content = [] ∧
            tagsErrors tags = [] := by
          simpa [createNoteValidationErrors, List.append_eq_nil, and_assoc] using he'
        refine ⟨h3.1, h3.2.1, ?_⟩
        intro ts hts
        have htg := h3.2.2
        rw [hts] at htg
        simp only [tagsErrors] at htg
        rcases hm : tagsCustomError ts with _ | m
        · exact (tagsCustomError_eq_none_iff ts).1 hm
        · rw [hm] at htg
          simp at htg
      · rw [houtFail he] at hn
        cases hn
    · rintro ⟨h1, h2, h3⟩
      have htg : tagsErrors tags = [] := by
        rcases tags with _ | ts
        · rfl
        · have hsem := h3 ts rfl
          have hcn : tagsCustomError ts = none :=
            (tagsCustomError_eq_none_iff ts).2 hsem
          simp [tagsErrors, hcn]
      have he : (createNoteValidationErrors title content tags).isEmpty := by
        simp [createNoteValidationErrors, h1, h2, htg]
      exact ⟨Note.mk newId (jsTrim title) (jsTrim content)
          ((tags.getD []).map normalizeTag) caller false false now now,
        by simp [createNote, he]⟩
  · intro ht
    have hne : ¬ (createNoteValidationErrors title content tags).isEmpty := by
      rw [List.isEmpty_iff]
      intro h
      rcases List.append_eq_nil.1 h with ⟨hab, _⟩
      exact ht (List.append_eq_nil.1 hab).1
    obtain ⟨e, hemem⟩ := List.exists_mem_of_ne_nil _ ht
    refine ⟨_, houtFail hne, e, ?_, titleErrors_field title e hemem⟩
    simp only [createNoteValidationErrors, List.mem_append]
    exact Or.inl (Or.inl hemem)
  · intro hc
    have hne : ¬ (createNoteValidationErrors title content tags).isEmpty := by
      rw [List.isEmpty_iff]
      intro h
      rcases List.append_eq_nil.1 h with ⟨hab, _⟩
      exact hc (List.append_eq_nil.1 hab).2
    obtain ⟨e, hemem⟩ := List.exists_mem_of_ne_nil _ hc
    refine ⟨_, houtFail hne, e, ?_, contentErrors_field content e hemem⟩
    simp only [createNoteValidationErrors, List.mem_append]
    exact Or.inl (Or.inr hemem)
  · intro ts hts hviol
    have hcne : tagsCustomError ts ≠ none := by
      rw [Ne, tagsCustomError_eq_none_iff]
      rintro ⟨hlen, hall⟩
      rcases hviol with hv | ⟨t, htm, htf⟩
      · omega
      · rw [hall t htm] at htf
        cases htf
    obtain ⟨m, hm⟩ := Option.ne_none_iff_exists'.1 hcne
    have htge : tagsErrors tags = [FieldError.mk "noteTags" m] := by
      rw [hts]
      simp [tagsErrors, hm]
    have hne : ¬ (createNoteValidationErrors title content tags).isEmpty := by
      rw [List.isEmpty_iff]
      intro h
      rcases List.append_eq_nil.1 h with ⟨_, htgnil⟩
      rw [htge] at htgnil
      cases htgnil
    refine ⟨_, houtFail hne, FieldError.mk "noteTags" m, ?_, rfl⟩
    simp only [createNoteValidationErrors, List.mem_append]
    exact Or.inr (by simp [htge])

/-- C3 witness: a create request whose only tag contains a space and an
exclamation mark is rejected with a validation error naming noteTags. -/
theorem createNote_tags_spec_witness :
    ∃ errs, (createNote 0 1 [] 7 "Title" "content" (some ["bad tag!"])).1
        = CreateOutcome.validationFailed errs ∧
      ∃ e ∈ errs, e.field = "noteTags" :=
  (createNote_tags_spec 0 1 [] 7 "Title" "content"
      (some ["bad tag!"])).2.2.2.2 ["bad tag!"] rfl
    (Or.inr ⟨"bad tag!", by decide, by decide⟩)

/-! ### Claim theorems: search -/

/-- C8: search rejects with InvalidQuery exactly when the query is absent
or trims to fewer than 2 characters; a present query trimming to at least 2
characters that matches none of the stored notes yields the empty result
page with total 0 rather than an error; and every returned note belongs to
the caller and is not archived. -/
theorem searchNotes_spec (tm : String → Note → Bool) (store : List Note)
    (userId : Nat) (q : Option String) (limit skip : Option Nat) :
    (searchNotes tm store userId q limit skip = SearchOutcome.invalidQuery ↔
      (q = none ∨ ∃ s, q = some s ∧ (jsTrim s).length < 2)) ∧
    (∀ s, q = some s → 2 ≤ (jsTrim s).length →
      (∀ n ∈ store, ¬ (n.noteOwner = userId ∧ tm (jsTrim s) n = true ∧
        n.isNoteArchived = false)) →
      searchNotes tm store userId q limit skip = SearchOutcome.results [] 0) ∧
    (∀ notes total, searchNotes tm store userId q limit skip
        = SearchOutcome.results notes total →
      ∀ n ∈ notes, n.noteOwner = userId ∧ n.isNoteArchived = false) := by
  refine ⟨?_, ?_, ?_⟩
  · rcases q with _ | s
    · simp [searchNotes]
    · simp only [searchNotes]
      by_cases h : s = "" ∨ (jsTrim s).length < 2
      · rw [if_pos h]
        have hlt : (jsTrim s).length < 2 := by
          rcases h with rfl | h
          · decide
          · exact h
        exact iff_of_true rfl (Or.inr ⟨s, rfl, hlt⟩)
      · rw [if_neg h]
        push_neg at h
        constructor
        · intro hcontra
          simp at hcontra
        · rintro (h0 | ⟨s2, hs2, hlt⟩)
          · simp at h0
          · injection hs2 with he
            subst he
            omega
  · intro s hq h2 hnone
    subst hq
    simp only [searchNotes]
    have hcond : ¬ (s = "" ∨ (jsTrim s).length < 2) := by
      rintro (rfl | h)
      · revert h2
        decide
      · omega
    rw [if_neg hcond]
    have hfilter : store.filter (fun n =>
        n.noteOwner == userId && tm (jsTrim s) n && !n.isNoteArchived) = [] := by
      rw [List.filter_eq_nil]
      intro n hn hcontra
      apply hnone n hn
      simp only [Bool.and_eq_true, beq_iff_eq, Bool.not_eq_true'] at hcontra
      exact ⟨hcontra.1.1, hcontra.1.2, hcontra.2⟩
    simp [hfilter]
  · intro notes total hout n hn
    rcases q with _ | s
    · simp [searchNotes] at hout
    · simp only [searchNotes] at hout
      by_cases h : s = "" ∨ (jsTrim s).length < 2
      · rw [if_pos h] at hout
        simp at hout
      · rw [if_neg h] at hout
        injection hout with hnotes htotal
        subst hnotes
        have hmem : n ∈ store.filter (fun n =>
            n.noteOwner == userId && tm (jsTrim s) n && !n.isNoteArchived) :=
          List.drop_subset _ _ (List.take_subset _ _ hn)
        have hp := (List.mem_filter.1 hmem).2
        simp only [Bool.and_eq_true, beq_iff_eq, Bool.not_eq_true'] at hp
        exact ⟨hp.1.1, hp.2⟩

/-- C8 witness: the query ab (length 2) against a store whose matcher
accepts nothing returns the empty page with total 0. -/
theorem searchNotes_spec_witness :
    searchNotes (fun _ _ => false) [Note.mk 1 "t" "c" [] 1 false false 0 0] 1
        (some "ab") none none = SearchOutcome.results [] 0 :=
  (searchNotes_spec (fun _ _ => false) [Note.mk 1 "t" "c" [] 1 false false 0 0]
      1 (some "ab") none none).2.1 "ab" rfl (by decide)
    (by intro n hn h; exact absurd h.2.1 (by simp))

/-! ### Claim theorems: login and protected-route authentication -/

/-- C10: a login by an active user with a matching password succeeds and
mints a bearer token without any isEmailVerified test, and that token is
accepted by the authentication middleware of every protected note route —
which checks only token validity and the re-fetched isAccountActive flag —
even when the user is unverified. -/
theorem login_ignores_emailVerification
    (cp : String → String → Bool) (now : Nat) (u : User) (pw : String)
    (hactive : u.isAccountActive = true)
    (hpw : cp pw u.passwordHash = true) :
    loginUser cp now (some u) pw
      = LoginOutcome.success
          (generateAuthToken now { u with lastLoginAt := some now })
          { u with lastLoginAt := some now } ∧
    (generateAuthToken now { u with lastLoginAt := some now }).isEmailVerified
      = u.isEmailVerified ∧
    (generateAuthToken now { u with lastLoginAt := some now }).userId = u.id ∧
    ∀ (route : NoteRoute) (now2 : Nat) (users : List User) (v : User),
      users.find? (fun w => w.id == u.id) = some v →
      v.isAccountActive = true →
      now2 ≤ (generateAuthToken now { u with lastLoginAt := some now }).expiresAt →
      noteRouteAuth route now2 users
          (some (generateAuthToken now { u with lastLoginAt := some now }))
        = AuthOutcome.authenticated v.id v.isEmailVerified := by
  refine ⟨?_, rfl, rfl, ?_⟩
  · simp [loginUser, hactive, hpw]
  · intro route now2 users v hfindv hvactive hexp
    simp only [noteRouteAuth, authenticateToken, generateAuthToken] at hexp ⊢
    rw [if_neg (by omega)]
    rw [hfindv]
    simp [hvactive]

/-- C10 witness: user 1 is active but unverified; login with an
always-accepting password check mints a token that the note-list route
middleware accepts, authenticating user 1 with isEmailVerified false. -/
theorem login_ignores_emailVerification_witness :
    noteRouteAuth NoteRoute.listAll 6
        [User.mk 1 "Ada Lovelace" "a@b.c" "123" "hash" false true none none none]
        (some (generateAuthToken 5
          (User.mk 1 "Ada Lovelace" "a@b.c" "123" "hash" false true none none
            (some 5))))
      = AuthOutcome.authenticated 1 false :=
  (login_ignores_emailVerification (fun _ _ => true) 5
      (User.mk 1 "Ada Lovelace" "a@b.c" "123" "hash" false true none none none)
      "pw" rfl rfl).2.2.2 NoteRoute.listAll 6
    [User.mk 1 "Ada Lovelace" "a@b.c" "123" "hash" false true none none none]
    (User.mk 1 "Ada Lovelace" "a@b.c" "123" "hash" false true none none none)
    rfl rfl (by decide)

/-- C6 witness: after marking user 1 as verified, a resend request is
rejected with the distinct EMAIL_ALREADY_VERIFIED error. -/
theorem markEmailAsVerified_terminal_spec_witness :
    resendOtp 0 0 (some (markEmailAsVerified
        (User.mk 1 "Ada Lovelace" "a@b.c" "123" "hash" false true
          (some "123456") (some 9) none)))
      = ResendOutcome.emailAlreadyVerified :=
  (markEmailAsVerified_terminal_spec
      (User.mk 1 "Ada Lovelace" "a@b.c" "123" "hash" false true
        (some "123456") (some 9) none) 0 0 0 "x").2.2.2.2.2
